import Mathlib

/-!  A shallow embedding of `inotify/newwatcher.py` (the high-level watcher of
python-inotify), together with proofs about its behaviour.

Pure Python fragments become Lean functions.  OS interaction (`os.readlink`,
`os.stat`) is an explicit oracle argument of type `Fs`; the raw events that a
low-level `inotify.read` call would return are passed in as a list, and
`Watcher.read` reports in its result whether it consulted that low-level source.
Python exceptions become `Except` values.  The `inotify._inotify` C binding and
the `constants` table are external collaborators that are not part of the
translated module; their fixed flag table is modelled from the spec with the
kernel inotify ABI values.  -/

/-- Python exceptions that the embedded code can raise.  `notFound` and
`noFiles` stand for the `InotifyWatcherException` and `NoFilesException` the
module tries to raise; those two names are bound nowhere in the module (they
are neither defined nor imported), so evaluating either `raise` statement in
fact raises NameError, and no code path can produce `notFound` or `noFiles` —
they are retained only so that statements can say what the intended exception
would have been. -/
inductive PyErr
  | notFound        -- the intended InotifyWatcherException ("File does not exist")
  | noFiles         -- the intended NoFilesException ("There are no files to watch")
  | nameError       -- NameError (a name that is bound nowhere, e.g. NoFilesException)
  | attributeError  -- AttributeError (an attribute that does not exist)
  | typeError       -- TypeError (path.join called with no arguments)
  | keyError        -- KeyError (dict lookup failure)
  | osError         -- any other propagated OSError
deriving DecidableEq, Repr

/-- `os.path.sep` on POSIX. -/
def path.sep : String := "/"

/-- `os.path.join(a, b)` (posixpath, two arguments); `b.startswith(sep)` and
`a.endswith(sep)` are expressed on the character lists so that proofs can
evaluate the function by reduction. -/
def path.join (a b : String) : String :=
  if path.sep.data.isPrefixOf b.data then b
  else if a = "" || path.sep.data.isSuffixOf a.data then a ++ b
  else a ++ path.sep ++ b

/-- `os.path.join(*xs)`: left fold of the two-argument join; with no arguments
Python raises TypeError, modelled as `none`. -/
def path.joinList : List String → Option String
  | [] => none
  | a :: rest => some (rest.foldl path.join a)

/-- The index `i = p.rfind(sep) + 1` used by `posixpath.split` (0 if no slash). -/
def path.rfindSepSucc (p : String) : Nat :=
  match p.data.reverse.findIdx? (fun c => c = '/') with
  | none => 0
  | some j => p.data.length - j

/-- `os.path.split(p)` (posixpath): split at the last slash; strip trailing
slashes from the head unless the head consists only of slashes. -/
def path.split (p : String) : String × String :=
  let i := path.rfindSepSucc p
  let head := p.data.take i
  let tail := p.data.drop i
  let head := if head.length != 0 && !(head.all (fun c => c = '/'))
              then (head.reverse.dropWhile (fun c => c = '/')).reverse
              else head
  (String.mk head, String.mk tail)

/-- `os.path.dirname(p)`. -/
def path.dirname (p : String) : String := (path.split p).1

/-! Modelled from the spec: the collaborator (the `_inotify` C binding, which is
not part of the translated module) exposes a fixed table of named bit flags
carrying the kernel inotify ABI values; the names are the ones the spec's fixed
table lists (plus `IN_ONLYDIR`, which the translated module reads from the same
table). -/

def IN_ACCESS : Nat := 0x00000001
def IN_MODIFY : Nat := 0x00000002
def IN_ATTRIB : Nat := 0x00000004
def IN_CLOSE_WRITE : Nat := 0x00000008
def IN_CLOSE_NOWRITE : Nat := 0x00000010
def IN_CLOSE : Nat := IN_CLOSE_WRITE ||| IN_CLOSE_NOWRITE
def IN_OPEN : Nat := 0x00000020
def IN_MOVED_FROM : Nat := 0x00000040
def IN_MOVED_TO : Nat := 0x00000080
def IN_MOVE : Nat := IN_MOVED_FROM ||| IN_MOVED_TO
def IN_CREATE : Nat := 0x00000100
def IN_DELETE : Nat := 0x00000200
def IN_DELETE_SELF : Nat := 0x00000400
def IN_MOVE_SELF : Nat := 0x00000800
def IN_UNMOUNT : Nat := 0x00002000
def IN_Q_OVERFLOW : Nat := 0x00004000
def IN_IGNORED : Nat := 0x00008000
def IN_ONLYDIR : Nat := 0x01000000
def IN_DONT_FOLLOW : Nat := 0x02000000
def IN_EXCL_UNLINK : Nat := 0x04000000
def IN_ISDIR : Nat := 0x40000000

/-- Modelled from the spec: `constants.values()` of the collaborator's table. -/
def constantsValues : List Nat :=
  [IN_ACCESS, IN_MODIFY, IN_ATTRIB, IN_CLOSE_WRITE, IN_CLOSE_NOWRITE, IN_CLOSE,
   IN_OPEN, IN_MOVED_FROM, IN_MOVED_TO, IN_MOVE, IN_CREATE, IN_DELETE,
   IN_DELETE_SELF, IN_MOVE_SELF, IN_UNMOUNT, IN_Q_OVERFLOW, IN_IGNORED,
   IN_ONLYDIR, IN_DONT_FOLLOW, IN_EXCL_UNLINK, IN_ISDIR]

/-- `functools.reduce(operator.or_, constants.values())`; folding from 0 is the
same value because 0 is the identity of `|||`. -/
def inotify_builtin_constants : Nat := constantsValues.foldl (· ||| ·) 0

/-- The import-time loop `IN_LINK_CHANGED = 1; while IN_LINK_CHANGED <
inotify_builtin_constants: IN_LINK_CHANGED <<= 1`, written with explicit fuel
so that it computes by reduction; 64 doublings exceed the bit width of every
flag in the table, so the fuel is never exhausted on the actual argument. -/
def linkChangedCalc (u : Nat) : Nat → Nat → Nat
  | 0, x => x
  | fuel + 1, x => if x < u then linkChangedCalc u fuel (x <<< 1) else x

def IN_LINK_CHANGED : Nat := linkChangedCalc inotify_builtin_constants 64 1

/-- Result of `os.readlink(p)`: either the link target, or the `errno`
classification that `_Watch.add` distinguishes. -/
inductive Readlink
  | target (link : String)  -- the entry is a symbolic link to `link`
  | einval                  -- OSError EINVAL: the entry is not a symbolic link
  | enoent                  -- OSError ENOENT/ENOTDIR: entry missing or path invalid
  | oserror                 -- any other OSError
deriving DecidableEq, Repr

/-- The filesystem oracle: what `os.readlink` and `os.stat` answer for a path.
`stat p = some (st_dev, st_ino)` on success, `none` when `os.stat` raises. -/
structure Fs where
  readlink : String → Readlink
  stat : String → Option (Nat × Nat)

/-- `_Link`: one chain segment.  The Python object also holds back-references
`watch` and `wd`; the owning `_Watch` is instead paired with the link wherever
a registered callback is stored (see `Callback`). -/
structure _Link where
  idx : Nat
  mask : Nat
  path : String
  name : Option String
deriving DecidableEq, Repr

/-- `_Watch`: `path` is the normalized component list, `cwd` the working
directory at creation time (used only by the never-called `_nonrel`). -/
structure _Watch where
  path : List String
  cwd : String
  mask : Nat
  links : List _Link
  inode : Option (Nat × Nat)
deriving DecidableEq, Repr

/-- The derived `Event`: `mask`, `cookie` and `name` are copied from the raw
event, `path` is the joined normalized path of the originating watch. -/
structure Event where
  mask : Nat
  cookie : Nat
  name : Option String
  path : String
deriving DecidableEq, Repr

/-- A raw event as returned by the low-level `inotify.read`. -/
structure RawEvent where
  wd : Nat
  mask : Nat
  cookie : Nat
  name : Option String
deriving DecidableEq, Repr

/-- `Event.fullpath`: `if self.name: return path.join(self.path, self.name)`;
note the truthiness test, under which a present-but-empty name is ignored. -/
def Event.fullpath (e : Event) : String :=
  match e.name with
  | some n => if n ≠ "" then path.join e.path n else e.path
  | none => e.path

/-- The generated per-flag getter `Event.modify` (`self.mask & IN_MODIFY`;
Python truthiness: the flag is set when the result is nonzero). -/
def Event.modify (e : Event) : Nat := e.mask &&& IN_MODIFY

/-- The generated per-flag getter `Event.link_changed`. -/
def Event.link_changed (e : Event) : Nat := e.mask &&& IN_LINK_CHANGED

/-- Python `str.split(sep)` for the one-character separator "/": cut the
character list at every slash, keeping empty pieces (`"".split("/") == [""]`,
`"/".split("/") == ["", ""]`). -/
def pySplitSlash : List Char → List Char → List String
  | [], acc => [String.mk acc.reverse]
  | c :: cs, acc =>
    if c = '/' then String.mk acc.reverse :: pySplitSlash cs []
    else pySplitSlash cs (c :: acc)

/-- `_Watch._normpath`: split on the separator and drop empty and "." parts. -/
def _Watch._normpath (pth : String) : List String :=
  (pySplitSlash pth.data []).filter (fun p => p != "" && p != ".")

/-- `_Watch.addlink`: append a non-leaf Link watching the parent directory for
create/delete/rename of the named entry, restricted to directories. -/
def _Watch.addlink (links : List _Link) (pth : String) : List _Link :=
  let pn := path.split pth
  let mask := IN_MOVE ||| IN_DELETE ||| IN_CREATE ||| IN_ONLYDIR
  links ++ [⟨links.length, mask, pn.1, some pn.2⟩]

/-- `_Watch.addleaf`: append the leaf Link with the requested mask widened by
self-move and self-delete interest, then `os.stat` the resolved entry. -/
def _Watch.addleaf (fs : Fs) (mask : Nat) (links : List _Link) (pth : String) :
    Except PyErr (List _Link × Option (Nat × Nat)) :=
  let m := mask ||| IN_MOVE_SELF ||| IN_DELETE_SELF
  let links' := links ++ [⟨links.length, m, pth, none⟩]
  match fs.stat pth with
  | some st => .ok (links', some st)
  | none => .error .osError

/-- The body of `_Watch.add`'s resolution loop.  On the symlink branch, after
`self.addlink(pth)` the next statement evaluates `os.join(path.dirname(pth),
link)`: the `os` module has no attribute `join` (the author meant `path.join`),
so an AttributeError is raised; it is not an OSError, so the `except` clause
does not catch it and it propagates out of `add`.  Consequently the loop never
reaches a second iteration and `linkdepth` is still 0 whenever the `except`
checks run, which makes the dangling-symlink return unreachable. -/
def _Watch.add (fs : Fs) (mask : Nat) (links : List _Link) (pth : String)
    (linkdepth : Nat) : Except PyErr (List _Link × Option (Nat × Nat)) :=
  match fs.readlink pth with
  | .target _link =>
      let _links' := _Watch.addlink links pth
      .error .attributeError
  | .einval => _Watch.addleaf fs mask links pth
  | .enoent =>
      if linkdepth = 0 then
        -- `raise InotifyWatcherException(...)`: that name is bound nowhere in
        -- the module, so evaluating it raises NameError instead
        .error .nameError
      else .ok (links, none)
  | .oserror => .error .osError

/-- `_Watch.__init__`: normalize the path, record cwd and mask, then run the
resolution loop starting from the requested path. -/
def _Watch.new (fs : Fs) (cwd : String) (pth : String) (mask : Nat) :
    Except PyErr _Watch :=
  match _Watch.add fs mask [] pth 0 with
  | .ok res => .ok ⟨_Watch._normpath pth, cwd, mask, res.1, res.2⟩
  | .error e => .error e

/-- `_Watch.handle_event(event, pth)`: one Event is yielded — the real one when
the originating link is the last of the chain and the raw mask meets the
requested mask, the synthetic link-changed one otherwise.  Both branches
evaluate `path.join(*self.path)`, which raises TypeError when the normalized
path is empty (e.g. a watch on "/" or "."). -/
def _Watch.handle_event (w : _Watch) (event : RawEvent) (l : _Link) :
    Except PyErr Event :=
  match path.joinList w.path with
  | none => .error .typeError
  | some p =>
    if (l.idx : Int) = (w.links.length : Int) - 1 ∧ event.mask &&& w.mask ≠ 0 then
      .ok ⟨event.mask, event.cookie, event.name, p⟩
    else
      .ok ⟨IN_LINK_CHANGED, 0, none, p⟩

/-- One `(mask, name, callback)` entry of `_Descriptor.callbacks`.  The stored
callback is the bound `_Link.handle_event`, a closure over the link and its
owning watch; the pair is stored explicitly here. -/
structure Callback where
  mask : Nat
  name : Option String
  watch : _Watch
  link : _Link
deriving DecidableEq, Repr

/-- `_Descriptor`: one low-level watch descriptor with its registered callbacks. -/
structure _Descriptor where
  wd : Nat
  mask : Nat
  callbacks : List Callback
deriving DecidableEq, Repr

/-- The registry and buffer state of a `Watcher` (the opaque kernel fd is not
represented). -/
structure Watcher where
  watchdescriptors : List (Nat × _Descriptor)
  paths : List (String × _Watch)
  buffer : List Event
deriving DecidableEq, Repr

/-- The callback loop of `_Descriptor.handle_event`: every callback whose mask
meets the raw mask and whose name filter is absent or equal to the raw name is
invoked; `_Link.handle_event` yields from `_Watch.handle_event`, so each match
contributes one Event (or propagates an exception). -/
def _Descriptor.runCallbacks (event : RawEvent) :
    List Callback → Except PyErr (List Event)
  | [] => .ok []
  | cb :: rest =>
    if event.mask &&& cb.mask ≠ 0 ∧ (cb.name = none ∨ cb.name = event.name) then
      match _Watch.handle_event cb.watch event cb.link with
      | .error e => .error e
      | .ok ev =>
        match _Descriptor.runCallbacks event rest with
        | .error e => .error e
        | .ok evs => .ok (ev :: evs)
    else _Descriptor.runCallbacks event rest

/-- Dictionary lookup `self._watchdescriptors[wd]`. -/
def lookupWd (wds : List (Nat × _Descriptor)) (wd : Nat) : Option _Descriptor :=
  match wds.find? (fun q => q.1 == wd) with
  | some q => some q.2
  | none => none

/-- `Watcher._removewatch`: delete the descriptor's registry entry. -/
def removeWd (wds : List (Nat × _Descriptor)) (wd : Nat) :
    List (Nat × _Descriptor) :=
  wds.filter (fun q => q.1 != wd)

/-- The event loop of `Watcher.read`: each raw event is dispatched to the
descriptor found under its `wd` (a missing key is a KeyError), the callback
results are collected in order, and — as the tail of `_Descriptor.handle_event`
— a raw IN_IGNORED event removes its descriptor before later raw events are
processed. -/
def Watcher.processEvents :
    List (Nat × _Descriptor) → List RawEvent →
    Except PyErr (List Event × List (Nat × _Descriptor))
  | wds, [] => .ok ([], wds)
  | wds, evt :: rest =>
    match lookupWd wds evt.wd with
    | none => .error .keyError
    | some d =>
      match _Descriptor.runCallbacks evt d.callbacks with
      | .error e => .error e
      | .ok evs =>
        let wds' := if evt.mask &&& IN_IGNORED ≠ 0 then removeWd wds evt.wd else wds
        match Watcher.processEvents wds' rest with
        | .error e => .error e
        | .ok res => .ok (evs ++ res.1, res.2)

/-- `Watcher.read`: drain the pending buffer first; otherwise require a
non-empty descriptor registry, pull raw events from the low-level source
(`raw` stands for what that call returns; the Bool result records whether it
was issued), dispatch them, and either buffer or return the Events. -/
def Watcher.read (st : Watcher) (block : Bool) (bufsize : Option Nat)
    (store_events : Bool) (raw : List RawEvent) :
    Except PyErr (Option (List Event) × Watcher × Bool) :=
  if st.buffer ≠ [] then
    .ok (some st.buffer, ⟨st.watchdescriptors, st.paths, []⟩, false)
  else
    let _bufsize := if !block then some 0 else if bufsize = some 0 then none else bufsize
    if st.watchdescriptors.length = 0 then
      -- `raise NoFilesException(...)`: that name is bound nowhere in the
      -- module, so evaluating it raises NameError instead
      .error .nameError
    else
      match Watcher.processEvents st.watchdescriptors raw with
      | .error e => .error e
      | .ok res =>
        if store_events then .ok (none, ⟨res.2, st.paths, st.buffer ++ res.1⟩, true)
        else .ok (some res.1, ⟨res.2, st.paths, st.buffer⟩, true)

/-- `Watcher.add(pth, mask)`: when `pth` is already a key of `self._paths` the
code calls `self._paths[pth].update_mask(mask)`, but class `_Watch` defines no
`update_mask` method, so an AttributeError is raised before anything else
happens.  Otherwise a new `_Watch` is constructed and stored under `pth` (the
low-level registrations `_createwatch` makes during construction are a side
effect on the descriptor registry that no claim depends on; they are not
tracked here). -/
def Watcher.add (fs : Fs) (cwd : String) (paths : List (String × _Watch))
    (pth : String) (mask : Nat) :
    Except PyErr (_Watch × List (String × _Watch)) :=
  if paths.any (fun q => q.1 == pth) then .error .attributeError
  else
    match _Watch.new fs cwd pth mask with
    | .ok w => .ok (w, paths ++ [(pth, w)])
    | .error e => .error e

/-! ## Concrete filesystems and objects used in the claim instances -/

/-- A filesystem on which "/l" is a symlink to the plain file "/f". -/
def fsC1 : Fs where
  readlink := fun p => if p = "/l" then .target "f" else if p = "/f" then .einval else .enoent
  stat := fun p => if p = "/f" then some (1, 1) else none

/-- A filesystem holding exactly the plain file "f" (a relative path). -/
def fsC2 : Fs where
  readlink := fun p => if p = "f" then .einval else .enoent
  stat := fun p => if p = "f" then some (1, 2) else none

/-- The watch that `Watcher.add fsC2 "/" [] "f" IN_MODIFY` constructs. -/
def wC2 : _Watch :=
  ⟨["f"], "/", IN_MODIFY,
   [⟨0, IN_MODIFY ||| IN_MOVE_SELF ||| IN_DELETE_SELF, "f", none⟩], some (1, 2)⟩

/-- The leaf link of `wC2`. -/
def lC8 : _Link := ⟨0, IN_MODIFY ||| IN_MOVE_SELF ||| IN_DELETE_SELF, "f", none⟩

/-- A filesystem on which "/l" is a symlink to a missing target. -/
def fsC3 : Fs where
  readlink := fun p => if p = "/l" then .target "missing" else .enoent
  stat := fun _ => none

/-! ## Shared helper lemmas -/

/-- The computed value of the synthetic flag. -/
theorem IN_LINK_CHANGED_val : IN_LINK_CHANGED = 2 ^ 31 := by decide

/-- When the normalized path joins to `p`, `_Watch.handle_event` yields exactly
one Event: the real one under the leaf-and-mask condition, else the synthetic
link-changed one. -/
theorem handle_event_eq (w : _Watch) (event : RawEvent) (l : _Link) (p : String)
    (hj : path.joinList w.path = some p) :
    _Watch.handle_event w event l =
      .ok (if (l.idx : Int) = (w.links.length : Int) - 1 ∧ event.mask &&& w.mask ≠ 0
           then ⟨event.mask, event.cookie, event.name, p⟩
           else ⟨IN_LINK_CHANGED, 0, none, p⟩) := by
  simp only [_Watch.handle_event, hj]
  split <;> rfl

/-- A successful `_Watch.add` run from the requested path can only come from the
not-a-symlink branch: the result is the single leaf link plus the stat inode. -/
theorem _Watch.add_ok (fs : Fs) (mask : Nat) (pth : String)
    (res : List _Link × Option (Nat × Nat))
    (h : _Watch.add fs mask [] pth 0 = .ok res) :
    ∃ st, fs.stat pth = some st ∧
      res = ([⟨0, mask ||| IN_MOVE_SELF ||| IN_DELETE_SELF, pth, none⟩], some st) := by
  unfold _Watch.add at h
  cases hr : fs.readlink pth <;> rw [hr] at h
  case target => simp at h
  case einval =>
    unfold _Watch.addleaf at h
    cases hs : fs.stat pth <;> rw [hs] at h
    case none => simp at h
    case some st => exact ⟨st, rfl, by simpa using h.symm⟩
  case enoent => simp at h
  case oserror => simp at h

/-! ## Claims -/

/-- C1: the claim says `add` on a path resolved through N ≥ 1 symlink steps
yields a Watch with N+1 Links (non-leaf name-filtered Links, then a leaf).  On
the code, construction instead fails on every such path: on the filesystem
where "/l" is a symlink to the existing plain file "/f", after the first
non-leaf Link is registered the statement `pth = os.join(path.dirname(pth),
link)` raises AttributeError, because the `os` module has no attribute `join`,
and the exception is not caught. -/
theorem C1_symlink_chain_raises :
    _Watch.new fsC1 "/" "/l" IN_MODIFY = .error .attributeError := by rfl

/-- C2: the claim says a second `add` for the same path widens the existing
Watch's mask and then replaces the registry entry.  On the code, the first
`add` succeeds and registers the watch under its path key, but the second
`add` for the same key raises AttributeError, because it calls
`self._paths[pth].update_mask(mask)` and class `_Watch` defines no
`update_mask` method. -/
theorem C2_second_add_raises :
    Watcher.add fsC2 "/" [] "f" IN_MODIFY = .ok (wC2, [("f", wC2)]) ∧
    Watcher.add fsC2 "/" [("f", wC2)] "f" IN_ACCESS = .error .attributeError := by
  exact ⟨by rfl, by rfl⟩

/-- C3: both halves of the claim fail on the code.  At link-depth 0 a missing
entry does make `add` fail, but with NameError — the raised name
`InotifyWatcherException` is bound nowhere in the module — not with the
claimed NotFoundError.  And for a dangling symlink ("/l" pointing at the
missing "missing") the claimed depth>0 success is unreachable: after
registering the first non-leaf Link the code evaluates `os.join` and raises
AttributeError, so `add` fails instead of returning a Watch that ends at the
non-leaf Link. -/
theorem C3_notfound_and_dangling_raise :
    _Watch.new fsC3 "/" "/nope" IN_MODIFY = .error .nameError ∧
    PyErr.nameError ≠ PyErr.notFound ∧
    _Watch.new fsC3 "/" "/l" IN_MODIFY = .error .attributeError := by
  exact ⟨by rfl, by decide, by rfl⟩

/-- C7: the synthetic link-changed bit computed at startup is 2^31; it is a
power of two, strictly greater than the union 0x4700EFFF of the collaborator
flag table, minimal such (2^30 is already ≤ the union, as IN_ISDIR =
0x40000000 is in the table), and it shares no bit with the union, hence
collides with no collaborator-defined bit. -/
theorem C7_link_changed_bit :
    IN_LINK_CHANGED = 2 ^ 31 ∧
    inotify_builtin_constants < 2 ^ 31 ∧
    2 ^ 30 ≤ inotify_builtin_constants ∧
    IN_LINK_CHANGED &&& inotify_builtin_constants = 0 := by decide

/-- C8: every successfully constructed Watch ends in a leaf Link (no name
filter) whose registered mask is the requested mask unioned with self-move and
self-delete interest. -/
theorem C8_leaf_mask (fs : Fs) (cwd pth : String) (mask : Nat) (w : _Watch)
    (l : _Link) (hw : _Watch.new fs cwd pth mask = .ok w)
    (hl : w.links.getLast? = some l) :
    l.name = none ∧ l.mask = mask ||| IN_MOVE_SELF ||| IN_DELETE_SELF := by
  unfold _Watch.new at hw
  cases hadd : _Watch.add fs mask [] pth 0 <;> rw [hadd] at hw
  case error e => simp at hw
  case ok res =>
    obtain ⟨st, _, hres⟩ := _Watch.add_ok fs mask pth res hadd
    have hwval : w = ⟨_Watch._normpath pth, cwd, mask, res.1, res.2⟩ := by
      simpa using hw.symm
    rw [hwval, hres] at hl
    simp at hl
    rw [← hl]
    exact ⟨rfl, rfl⟩

/-- Witness for C8 at the concrete plain-file filesystem `fsC2`. -/
theorem C8_leaf_mask_witness :
    lC8.name = none ∧ lC8.mask = IN_MODIFY ||| IN_MOVE_SELF ||| IN_DELETE_SELF :=
  C8_leaf_mask fsC2 "/" "f" IN_MODIFY wC2 lC8 (by rfl) (by rfl)

/-- A pending buffered event used in the read-path claims. -/
def ev0 : Event := ⟨IN_MODIFY, 0, none, "f"⟩

/-- C4 counterexample, refuting the claim at two explicit inputs.  First: a
Watcher whose descriptor registry is empty but whose pending buffer is
non-empty does not raise on `read(block=true)` at all; it returns the
buffered events, because the buffer check precedes the zero-watches check.
(Such a state is reachable: a read with store_events=true whose raw batch
ends in an IN_IGNORED event buffers events and empties the registry.)
Second: even with both registry and buffer empty the call does not fail with
the claimed NoWatchesError but with NameError, since the raised name
`NoFilesException` is bound nowhere in the module. -/
theorem C4_counterexample :
    Watcher.read ⟨[], [], [ev0]⟩ true none false [] =
      .ok (some [ev0], ⟨[], [], []⟩, false) ∧
    Watcher.read ⟨[], [], [ev0]⟩ true none false [] ≠ .error .noFiles ∧
    Watcher.read ⟨[], [], []⟩ true none false [] = .error .nameError ∧
    PyErr.nameError ≠ PyErr.noFiles := by
  refine ⟨by rfl, ?_, by rfl, by decide⟩
  intro h
  rw [show Watcher.read ⟨[], [], [ev0]⟩ true none false [] =
        .ok (some [ev0], ⟨[], [], []⟩, false) from rfl] at h
  exact Except.noConfusion h

/-- C4 amended: for every Watcher whose descriptor registry is empty AND whose
pending buffer is empty, `read(block=true)` fails — but by raising NameError
(the name `NoFilesException` on the raise line is unbound in the module), not
with a NoWatchesError. -/
theorem C4_amended_read_raises_nameerror (st : Watcher) (bufsize : Option Nat)
    (store_events : Bool) (raw : List RawEvent)
    (hw : st.watchdescriptors = []) (hb : st.buffer = []) :
    Watcher.read st true bufsize store_events raw = .error .nameError := by
  unfold Watcher.read
  rw [hb, hw]
  simp

/-- Witness for C4 amended: the freshly initialized Watcher state. -/
theorem C4_amended_witness :
    Watcher.read ⟨[], [], []⟩ true none false [] = .error .nameError :=
  C4_amended_read_raises_nameerror ⟨[], [], []⟩ none false [] rfl rfl

/-- A filesystem on which "/" exists and is (of course) not a symlink. -/
def fsC5 : Fs where
  readlink := fun p => if p = "/" then .einval else .enoent
  stat := fun p => if p = "/" then some (2, 1) else none

/-- The watch that `add("/", IN_MODIFY)` constructs: its normalized path is
the empty component list. -/
def wC5 : _Watch :=
  ⟨[], "/", IN_MODIFY,
   [⟨0, IN_MODIFY ||| IN_MOVE_SELF ||| IN_DELETE_SELF, "/", none⟩], some (2, 1)⟩

/-- C5 counterexample: watching "/" succeeds and normalizes the path to no
components; `handle_event` then raises TypeError (`path.join()` called with
no arguments) instead of yielding any Event — neither the real Event the
claim requires here (the originating link is the leaf and the masks
intersect) nor a synthetic one. -/
theorem C5_counterexample :
    _Watch.new fsC5 "/" "/" IN_MODIFY = .ok wC5 ∧
    _Watch.handle_event wC5 ⟨1, IN_MODIFY, 0, none⟩
        ⟨0, IN_MODIFY ||| IN_MOVE_SELF ||| IN_DELETE_SELF, "/", none⟩ =
      .error .typeError := by
  exact ⟨by rfl, by rfl⟩

/-- C5 amended: for every Watch whose normalized requested path is non-empty
(joining to `p`), `handle_event` yields exactly one Event: the real domain
Event (raw mask, cookie and name, addressed at `p`) when the originating Link
is the chain's last Link and the raw mask intersects the requested mask, and
in every other case the synthetic Event carrying only the link-changed flag,
cookie 0 and no name.  (A Watch whose requested path normalizes to no
components — e.g. "/" — instead raises TypeError, see the counterexample.) -/
theorem C5_amended_handle_event (w : _Watch) (event : RawEvent) (l : _Link)
    (p : String) (hj : path.joinList w.path = some p) :
    _Watch.handle_event w event l =
      .ok (if (l.idx : Int) = (w.links.length : Int) - 1 ∧ event.mask &&& w.mask ≠ 0
           then ⟨event.mask, event.cookie, event.name, p⟩
           else ⟨IN_LINK_CHANGED, 0, none, p⟩) :=
  handle_event_eq w event l p hj

/-- Witness for C5 amended, on the non-leaf/mask-miss side: an IN_ACCESS raw
event on `wC2`'s leaf does not meet the IN_MODIFY interest, so the synthetic
link-changed Event is yielded. -/
theorem C5_amended_witness :
    _Watch.handle_event wC2 ⟨1, IN_ACCESS, 0, none⟩ lC8 =
      .ok (if (lC8.idx : Int) = (wC2.links.length : Int) - 1 ∧
              IN_ACCESS &&& wC2.mask ≠ 0
           then ⟨IN_ACCESS, 0, none, "f"⟩
           else ⟨IN_LINK_CHANGED, 0, none, "f"⟩) :=
  C5_amended_handle_event wC2 ⟨1, IN_ACCESS, 0, none⟩ lC8 "f" (by rfl)

/-- A filesystem holding exactly the plain file "/tmp/f". -/
def fsC6 : Fs where
  readlink := fun p => if p = "/tmp/f" then .einval else .enoent
  stat := fun p => if p = "/tmp/f" then some (3, 4) else none

/-- The watch that `add("/tmp/f", IN_MODIFY)` constructs. -/
def wC6 : _Watch :=
  ⟨["tmp", "f"], "/", IN_MODIFY,
   [⟨0, IN_MODIFY ||| IN_MOVE_SELF ||| IN_DELETE_SELF, "/tmp/f", none⟩], some (3, 4)⟩

/-- C6 counterexample: watching the plain file "/tmp/f" for modify interest
and receiving a raw modify event on the leaf Link yields one real Event with
the modify flag set and the link-changed flag clear, but its fullpath is
"tmp/f", not the requested "/tmp/f": `_normpath` drops the leading separator
and nothing restores it (`_nonrel`, which would rejoin the recorded working
directory, is never called). -/
theorem C6_counterexample :
    _Watch.new fsC6 "/" "/tmp/f" IN_MODIFY = .ok wC6 ∧
    _Watch.handle_event wC6 ⟨1, IN_MODIFY, 0, none⟩
        ⟨0, IN_MODIFY ||| IN_MOVE_SELF ||| IN_DELETE_SELF, "/tmp/f", none⟩ =
      .ok ⟨IN_MODIFY, 0, none, "tmp/f"⟩ ∧
    Event.fullpath ⟨IN_MODIFY, 0, none, "tmp/f"⟩ = "tmp/f" ∧
    Event.modify ⟨IN_MODIFY, 0, none, "tmp/f"⟩ ≠ 0 ∧
    Event.link_changed ⟨IN_MODIFY, 0, none, "tmp/f"⟩ = 0 ∧
    "tmp/f" ≠ "/tmp/f" := by
  exact ⟨by rfl, by rfl, by rfl, by decide, by decide, by decide⟩

/-- C6 amended: watching a plain (non-symlink, statable) file F with
modify-containing interest, a raw modify event arriving on the leaf Link
yields one real domain Event whose fullpath is the separator-join `p` of F's
non-empty, non-"." components (equal to F itself only when F is already in
that canonical relative form), with the modify flag set and the link-changed
flag clear. -/
theorem C6_amended_modify_event (fs : Fs) (cwd F : String) (mask : Nat)
    (st : Nat × Nat) (wd cookie : Nat) (p : String)
    (h1 : fs.readlink F = .einval) (h2 : fs.stat F = some st)
    (hm : mask &&& IN_MODIFY ≠ 0)
    (hj : path.joinList (_Watch._normpath F) = some p) :
    _Watch.new fs cwd F mask =
      .ok ⟨_Watch._normpath F, cwd, mask,
           [⟨0, mask ||| IN_MOVE_SELF ||| IN_DELETE_SELF, F, none⟩], some st⟩ ∧
    _Watch.handle_event
        ⟨_Watch._normpath F, cwd, mask,
         [⟨0, mask ||| IN_MOVE_SELF ||| IN_DELETE_SELF, F, none⟩], some st⟩
        ⟨wd, IN_MODIFY, cookie, none⟩
        ⟨0, mask ||| IN_MOVE_SELF ||| IN_DELETE_SELF, F, none⟩ =
      .ok ⟨IN_MODIFY, cookie, none, p⟩ ∧
    Event.fullpath ⟨IN_MODIFY, cookie, none, p⟩ = p ∧
    Event.modify ⟨IN_MODIFY, cookie, none, p⟩ ≠ 0 ∧
    Event.link_changed ⟨IN_MODIFY, cookie, none, p⟩ = 0 := by
  refine ⟨?_, ?_, by rfl,
    by exact (by decide : IN_MODIFY &&& IN_MODIFY ≠ 0),
    by exact (by decide : IN_MODIFY &&& IN_LINK_CHANGED = 0)⟩
  · simp [_Watch.new, _Watch.add, _Watch.addleaf, h1, h2]
  · rw [handle_event_eq _ ⟨wd, IN_MODIFY, cookie, none⟩ _ p hj]
    rw [if_pos ⟨by norm_num, by rw [Nat.land_comm]; exact hm⟩]

/-- Witness for C6 amended at the concrete filesystem `fsC6`. -/
theorem C6_amended_witness :
    _Watch.new fsC6 "/" "/tmp/f" IN_MODIFY =
      .ok ⟨_Watch._normpath "/tmp/f", "/", IN_MODIFY,
           [⟨0, IN_MODIFY ||| IN_MOVE_SELF ||| IN_DELETE_SELF, "/tmp/f", none⟩],
           some (3, 4)⟩ ∧
    _Watch.handle_event
        ⟨_Watch._normpath "/tmp/f", "/", IN_MODIFY,
         [⟨0, IN_MODIFY ||| IN_MOVE_SELF ||| IN_DELETE_SELF, "/tmp/f", none⟩],
         some (3, 4)⟩
        ⟨1, IN_MODIFY, 0, none⟩
        ⟨0, IN_MODIFY ||| IN_MOVE_SELF ||| IN_DELETE_SELF, "/tmp/f", none⟩ =
      .ok ⟨IN_MODIFY, 0, none, "tmp/f"⟩ ∧
    Event.fullpath ⟨IN_MODIFY, 0, none, "tmp/f"⟩ = "tmp/f" ∧
    Event.modify ⟨IN_MODIFY, 0, none, "tmp/f"⟩ ≠ 0 ∧
    Event.link_changed ⟨IN_MODIFY, 0, none, "tmp/f"⟩ = 0 :=
  C6_amended_modify_event fsC6 "/" "/tmp/f" IN_MODIFY (3, 4) 1 0 "tmp/f"
    (by rfl) (by rfl) (by decide) (by rfl)

/-- C9: on a Watcher with an empty buffer and a non-empty registry, a read
with store_events=true appends the collected Events to the pending buffer and
returns nothing (having issued the low-level read); the next read returns
exactly those buffered events without issuing a low-level read and clears the
buffer; and a further read after the drain issues a fresh low-level read
again.  The Bool in each result records whether the low-level read was
issued. -/
theorem C9_store_then_drain (st : Watcher) (block₁ block₂ block₃ : Bool)
    (bufsize₁ bufsize₂ bufsize₃ : Option Nat) (se₂ : Bool)
    (raw₁ raw₂ raw₃ : List RawEvent) (evs evs₃ : List Event)
    (wds' wds₃ : List (Nat × _Descriptor))
    (hb : st.buffer = []) (hw : st.watchdescriptors ≠ [])
    (hp : Watcher.processEvents st.watchdescriptors raw₁ = .ok (evs, wds'))
    (hne : evs ≠ []) (hw' : wds' ≠ [])
    (hp₃ : Watcher.processEvents wds' raw₃ = .ok (evs₃, wds₃)) :
    Watcher.read st block₁ bufsize₁ true raw₁ =
      .ok (none, ⟨wds', st.paths, evs⟩, true) ∧
    Watcher.read ⟨wds', st.paths, evs⟩ block₂ bufsize₂ se₂ raw₂ =
      .ok (some evs, ⟨wds', st.paths, []⟩, false) ∧
    Watcher.read ⟨wds', st.paths, []⟩ block₃ bufsize₃ false raw₃ =
      .ok (some evs₃, ⟨wds₃, st.paths, []⟩, true) := by
  have hlen : ¬ st.watchdescriptors.length = 0 := by
    simpa [List.length_eq_zero] using hw
  have hlen' : ¬ wds'.length = 0 := by
    simpa [List.length_eq_zero] using hw'
  refine ⟨?_, ?_, ?_⟩
  · simp [Watcher.read, hb, hlen, hp]
  · simp [Watcher.read, hne]
  · simp [Watcher.read, hlen', hp₃]

/-- The callback registered for `wC2`'s leaf link. -/
def cbW : Callback := ⟨IN_MODIFY ||| IN_MOVE_SELF ||| IN_DELETE_SELF, none, wC2, lC8⟩

/-- A descriptor with the single callback `cbW` under low-level handle 5. -/
def dW : _Descriptor := ⟨5, IN_MODIFY ||| IN_MOVE_SELF ||| IN_DELETE_SELF, [cbW]⟩

/-- A Watcher holding the single descriptor `dW` and an empty buffer. -/
def stW : Watcher := ⟨[(5, dW)], [("f", wC2)], []⟩

/-- One raw modify event on handle 5. -/
def rawW : List RawEvent := [⟨5, IN_MODIFY, 0, none⟩]

/-- The domain event the dispatch of `rawW` produces. -/
def evW : Event := ⟨IN_MODIFY, 0, none, "f"⟩

/-- Witness for C9 at the concrete one-descriptor Watcher `stW`. -/
theorem C9_store_then_drain_witness :
    Watcher.read stW true none true rawW =
      .ok (none, ⟨[(5, dW)], [("f", wC2)], [evW]⟩, true) ∧
    Watcher.read ⟨[(5, dW)], [("f", wC2)], [evW]⟩ true none false [] =
      .ok (some [evW], ⟨[(5, dW)], [("f", wC2)], []⟩, false) ∧
    Watcher.read ⟨[(5, dW)], [("f", wC2)], []⟩ true none false [] =
      .ok (some [], ⟨[(5, dW)], [("f", wC2)], []⟩, true) :=
  C9_store_then_drain stW true true true none none none false rawW [] []
    [evW] [] [(5, dW)] [(5, dW)] rfl (by decide) (by rfl) (by decide)
    (by decide) (by rfl)

/-- C10: whenever the pending buffer is non-empty, `read` returns and clears
the buffered events without raising and without a low-level read — even when
the descriptor registry is empty; the zero-watches check runs only after the
buffer has been found empty. -/
theorem C10_buffer_first (st : Watcher) (block : Bool) (bufsize : Option Nat)
    (store_events : Bool) (raw : List RawEvent) (hb : st.buffer ≠ []) :
    Watcher.read st block bufsize store_events raw =
      .ok (some st.buffer, ⟨st.watchdescriptors, st.paths, []⟩, false) := by
  unfold Watcher.read
  rw [if_pos hb]

/-- Witness for C10 at a Watcher with an empty registry and one buffered
event. -/
theorem C10_buffer_first_witness :
    Watcher.read ⟨[], [], [ev0]⟩ false (some 0) true [] =
      .ok (some [ev0], ⟨[], [], []⟩, false) :=
  C10_buffer_first ⟨[], [], [ev0]⟩ false (some 0) true [] (by decide)
